import Mathlib

/-!
# Verification of the synheart-behavior bridge and its behavior-processor core

The repository fragment under verification is the JNI bridge
`android/src/main/cpp/flux_jni_bridge.cpp`.  The bridge resolves a fixed
set of function pointers from `libsynheart_flux.so` and forwards calls,
converting strings and handles at the managed/native boundary.  The
behavior-processor core the bridge calls into is not part of the fragment,
so the core (Processor, Converter, Baseline model) is modelled from the
specification, while the bridge's control flow (lazy one-time loading of
function pointers, null-handle and null-string guards, sentinel returns)
is embedded directly from the C++ source.

Conventions of the embedding:
* A C pointer that is only tested for nullness is a `Bool`
  (`true` = non-null).
* A `jstring` argument is an `Option` (`none` = a null reference, or a
  string whose UTF-8 conversion in `jstring_to_cstring` fails — the
  bridge treats both identically, returning its failure sentinel).
* A processor handle (`jlong`) is a `Nat`; `0` is the null handle, a
  non-zero handle `h` addresses slot `h - 1` of the heap of processors.
* Each JNI entry point is a function from an environment (which symbols
  the dynamic library resolves) and a world (bridge globals, processor
  heap, trace of invocations of the resolved library functions) to a
  result and a new world.
-/

/-- Modelled from the spec: the error kinds of the behavior-processor
core (§7), which is not part of the visible fragment. -/
inductive FluxError where
  | MalformedInput
  | InvalidConfiguration
  | MalformedSnapshot
  | UseAfterDispose
deriving DecidableEq, Repr

/-- Modelled from the spec: a structured session payload as received over
the text-encoded boundary, before schema validation.  The required
fields of the schema (a session identifier and the list of numeric event
measurements, §3) may each be absent, which models a payload "missing a
required field". -/
structure RawPayload where
  sessionId : Option Nat
  events : Option (List Int)
deriving DecidableEq, Repr

/-- Modelled from the spec: a successfully parsed Session (§3): an
ordered sequence of numeric event measurements submitted as a unit. -/
structure Session where
  sessionId : Nat
  events : List Int
deriving DecidableEq, Repr

/-- Modelled from the spec: schema validation of a session payload;
fails iff a required field is missing (§4.1, §4.2 `MalformedInput`). -/
def parseSession (r : RawPayload) : Option Session :=
  match r.sessionId, r.events with
  | some i, some es => some ⟨i, es⟩
  | _, _ => none

/-- Modelled from the spec: the aggregate metric of one session
(§4.2 "Computes the session's aggregate metrics"); the concrete
deterministic choice is the sum of the event measurements. -/
def sessionAggregate (s : Session) : Int := s.events.sum

/-- Aggregate of a raw payload, defined when it parses (0 otherwise;
only used under a validity hypothesis). -/
def rawAggregate (r : RawPayload) : Int :=
  match parseSession r with
  | some s => sessionAggregate s
  | none => 0

/-- Modelled from the spec: the output of one `Process` call (§3
ProcessingResult): whether baseline comparison was possible, and the
deviation indicator derived from comparing the session aggregate to the
Baseline. -/
structure ProcessingResult where
  baselineEstablished : Bool
  deviation : Option Int
deriving DecidableEq, Repr

/-- Modelled from the spec: the opaque, versioned serialized Baseline
snapshot (§3, §4.2 SaveBaselines/LoadBaselines). -/
structure Snapshot where
  version : Nat
  entries : List Int
deriving DecidableEq, Repr

/-- Modelled from the spec: the Behavior Processor (§4.2): a configured
window `W`, a rolling Baseline holding the aggregates of the most recent
sessions (newest first, window-bounded ring of per-session aggregates —
the concrete choice permitted by §3), and the state-machine flag
distinguishing Active from Disposed. -/
structure Processor where
  window : Nat
  baseline : List Int
  disposed : Bool
deriving DecidableEq, Repr

/-- Modelled from the spec: the implementation-defined minimum number of
baseline sessions needed for comparison (§4.2, "e.g., 1"). -/
def minComparisonSessions : Nat := 1

/-- Modelled from the spec: `New(baselineWindow)` (§4.2): fails with
`InvalidConfiguration` if `baselineWindow <= 0`, otherwise an Active
Processor with an empty Baseline and the given window. -/
def Processor.new (w : Int) : Except FluxError Processor :=
  if w ≤ 0 then .error .InvalidConfiguration
  else .ok ⟨w.toNat, [], false⟩

/-- Modelled from the spec: `Process(session)` (§4.2): fails with
`UseAfterDispose` on a disposed instance and `MalformedInput` on schema
violation (each leaving the Baseline unchanged); otherwise compares the
session aggregate against the Baseline when enough history exists and
incorporates the aggregate into the Baseline under the window-bound
eviction rule of §3.  The deviation indicator is the length-scaled
difference from the baseline mean, a concrete deterministic choice for
the standardized-deviation comparison of §4.2. -/
def Processor.process (p : Processor) (r : RawPayload) :
    Except FluxError (ProcessingResult × Processor) :=
  if p.disposed then .error .UseAfterDispose
  else
    match parseSession r with
    | none => .error .MalformedInput
    | some s =>
      let a := sessionAggregate s
      let res : ProcessingResult :=
        if minComparisonSessions ≤ p.baseline.length then
          ⟨true, some (a * p.baseline.length - p.baseline.sum)⟩
        else ⟨false, none⟩
      .ok (res, { p with baseline := (a :: p.baseline).take p.window })

/-- Modelled from the spec: `SaveBaselines()` (§4.2): serializes the
Baseline into a versioned snapshot; never fails for an Active processor
and does not mutate state (it returns no updated processor). -/
def Processor.saveBaselines (p : Processor) : Except FluxError Snapshot :=
  if p.disposed then .error .UseAfterDispose
  else .ok ⟨1, p.baseline⟩

/-- Modelled from the spec: decoding of a snapshot payload; fails on a
wrong version tag (§4.2 `MalformedSnapshot`). -/
def decodeSnapshot (s : Snapshot) : Option (List Int) :=
  if s.version = 1 then some s.entries else none

/-- Modelled from the spec: `LoadBaselines(snapshot)` (§4.2): replaces
the Baseline atomically with the decoded one; fails with
`MalformedSnapshot` leaving the existing Baseline unchanged, and fails
with `UseAfterDispose` on a disposed instance. -/
def Processor.loadBaselines (p : Processor) (snap : Snapshot) :
    Except FluxError Processor :=
  if p.disposed then .error .UseAfterDispose
  else
    match decodeSnapshot snap with
    | none => .error .MalformedSnapshot
    | some es => .ok { p with baseline := es }

/-- Modelled from the spec: `Dispose()` (§4.2): transitions to Disposed;
idempotent. -/
def Processor.dispose (p : Processor) : Processor := { p with disposed := true }

/-- Runs a sequence of `Process` calls, keeping the prior state across a
failing call (a failing call performs no mutation, §7). -/
def Processor.processMany (p : Processor) (rs : List RawPayload) : Processor :=
  rs.foldl (fun q r =>
    match q.process r with
    | .ok (_, q') => q'
    | .error _ => q) p

/-- Modelled from the spec: the HSI representation produced by the
stateless Converter (§3): a structured re-expression of the input
payload into the indicator schema. -/
structure Hsi where
  indicatorId : Nat
  values : List Int
deriving DecidableEq, Repr

/-- Modelled from the spec: `ToIndicator(payload)` (§4.1): a pure
function of its input; fails with `MalformedInput` when the payload does
not validate against the schema. -/
def toIndicator (r : RawPayload) : Except FluxError Hsi :=
  match parseSession r with
  | none => .error .MalformedInput
  | some s => .ok ⟨s.sessionId, s.events⟩

/-- The link environment of the bridge: whether `dlopen` of
`libsynheart_flux.so` yields a handle (directly or via the explicit
retry, flux_jni_bridge.cpp:44-48), and which of the nine symbols
`dlsym` resolves to a non-null pointer (lines 56-64). -/
structure LinkEnv where
  dlopen_ok : Bool
  sym_to_hsi : Bool
  sym_free_string : Bool
  sym_last_error : Bool
  sym_processor_new : Bool
  sym_processor_free : Bool
  sym_processor_process : Bool
  sym_processor_save : Bool
  sym_processor_load : Bool
  sym_version : Bool
deriving DecidableEq, Repr

/-- The bridge's global mutable state (flux_jni_bridge.cpp:25-34): one
non-nullness flag per function pointer, plus `g_functions_loaded`. -/
structure BridgeState where
  g_to_hsi : Bool
  g_free_string : Bool
  g_last_error : Bool
  g_processor_new : Bool
  g_processor_free : Bool
  g_processor_process : Bool
  g_processor_save : Bool
  g_processor_load : Bool
  g_version : Bool
  g_functions_loaded : Bool
deriving DecidableEq, Repr

/-- The globals at process start: all pointers null, not loaded
(flux_jni_bridge.cpp:25-34). -/
def initialBridgeState : BridgeState :=
  ⟨false, false, false, false, false, false, false, false, false, false⟩

/-- `load_flux_functions` (flux_jni_bridge.cpp:37-84): returns `true`
immediately when already loaded; fails when `dlopen` fails; otherwise
writes all nine pointers from `dlsym`, and sets `g_functions_loaded`
and returns `true` only when the eight required pointers are all
non-null (`flux_version` is optional). -/
def load_flux_functions (env : LinkEnv) (s : BridgeState) :
    Bool × BridgeState :=
  if s.g_functions_loaded then (true, s)
  else if !env.dlopen_ok then (false, s)
  else
    let s1 : BridgeState :=
      { s with
        g_to_hsi := env.sym_to_hsi
        g_free_string := env.sym_free_string
        g_last_error := env.sym_last_error
        g_processor_new := env.sym_processor_new
        g_processor_free := env.sym_processor_free
        g_processor_process := env.sym_processor_process
        g_processor_save := env.sym_processor_save
        g_processor_load := env.sym_processor_load
        g_version := env.sym_version }
    if s1.g_to_hsi && s1.g_free_string && s1.g_last_error &&
       s1.g_processor_new && s1.g_processor_free && s1.g_processor_process &&
       s1.g_processor_save && s1.g_processor_load then
      (true, { s1 with g_functions_loaded := true })
    else (false, s1)

/-- The eight required function pointers are all non-null
(flux_jni_bridge.cpp:67-70). -/
def requiredLoaded (s : BridgeState) : Bool :=
  s.g_to_hsi && s.g_free_string && s.g_last_error &&
  s.g_processor_new && s.g_processor_free && s.g_processor_process &&
  s.g_processor_save && s.g_processor_load

/-- The invariant of the bridge globals: `g_functions_loaded` is `true`
only if all eight required pointers are non-null. -/
def loadedInv (s : BridgeState) : Prop :=
  s.g_functions_loaded = true → requiredLoaded s = true

/-- One invocation of a function resolved from the library, as recorded
in the call trace of a `World`. -/
inductive NativeCall where
  | to_hsi
  | free_string
  | last_error
  | processor_new
  | processor_free
  | processor_process
  | processor_save
  | processor_load
deriving DecidableEq, Repr

/-- The world an entry point acts on: the bridge globals, the heap of
core processors addressed by non-zero handles (handle `h` names slot
`h - 1`), and the trace of invocations made through the resolved
converter/processor function pointers. -/
structure World where
  bridge : BridgeState
  procs : List Processor
  calls : List NativeCall
deriving DecidableEq, Repr

/-- `nativeBehaviorToHsi` (flux_jni_bridge.cpp:113-143): returns the
null sentinel when loading fails or the input string is null or
unconvertible; otherwise invokes `flux_behavior_to_hsi`, queries
`flux_last_error` on a null result, and frees the returned buffer on
success. -/
def nativeBehaviorToHsi (env : LinkEnv) (w : World) (json : Option RawPayload) :
    Option Hsi × World :=
  let r := load_flux_functions env w.bridge
  let w1 : World := { w with bridge := r.2 }
  if !r.1 then (none, w1)
  else
    match json with
    | none => (none, w1)
    | some payload =>
      match toIndicator payload with
      | .error _ =>
        (none, { w1 with calls := w1.calls ++ [.to_hsi, .last_error] })
      | .ok h =>
        (some h, { w1 with calls := w1.calls ++ [.to_hsi, .free_string] })

/-- `nativeProcessorNew` (flux_jni_bridge.cpp:146-158): returns handle 0
when loading fails; otherwise invokes `flux_behavior_processor_new`,
whose null pointer on invalid configuration reinterprets to handle 0,
and a fresh processor yields a fresh non-zero handle. -/
def nativeProcessorNew (env : LinkEnv) (w : World) (window : Int) :
    Nat × World :=
  let r := load_flux_functions env w.bridge
  let w1 : World := { w with bridge := r.2 }
  if !r.1 then (0, w1)
  else
    let w2 : World := { w1 with calls := w1.calls ++ [.processor_new] }
    match Processor.new window with
    | .error _ => (0, w2)
    | .ok p => (w2.procs.length + 1, { w2 with procs := w2.procs ++ [p] })

/-- `nativeProcessorFree` (flux_jni_bridge.cpp:161-173): a no-op when
loading fails or the handle is 0; otherwise invokes
`flux_behavior_processor_free`, which disposes the addressed processor
(a no-op on an invalid handle, per the spec's `processor_free`
contract). -/
def nativeProcessorFree (env : LinkEnv) (w : World) (h : Nat) : World :=
  let r := load_flux_functions env w.bridge
  let w1 : World := { w with bridge := r.2 }
  if !r.1 || h = 0 then w1
  else
    let w2 : World := { w1 with calls := w1.calls ++ [.processor_free] }
    match w2.procs[h - 1]? with
    | none => w2
    | some p => { w2 with procs := w2.procs.set (h - 1) p.dispose }

/-- `nativeProcessorProcess` (flux_jni_bridge.cpp:176-207): returns the
null sentinel when loading fails, the handle is 0, or the input string
is null or unconvertible; otherwise invokes
`flux_behavior_processor_process`, querying `flux_last_error` on a null
result and freeing the result buffer on success. -/
def nativeProcessorProcess (env : LinkEnv) (w : World) (h : Nat)
    (json : Option RawPayload) : Option ProcessingResult × World :=
  let r := load_flux_functions env w.bridge
  let w1 : World := { w with bridge := r.2 }
  if !r.1 || h = 0 then (none, w1)
  else
    match json with
    | none => (none, w1)
    | some payload =>
      let w2 : World := { w1 with calls := w1.calls ++ [.processor_process] }
      match w2.procs[h - 1]? with
      | none => (none, { w2 with calls := w2.calls ++ [.last_error] })
      | some p =>
        match p.process payload with
        | .error _ => (none, { w2 with calls := w2.calls ++ [.last_error] })
        | .ok (res, p') =>
          (some res,
           { w2 with
             procs := w2.procs.set (h - 1) p'
             calls := w2.calls ++ [.free_string] })

/-- `nativeProcessorSaveBaselines` (flux_jni_bridge.cpp:209-234):
returns the null sentinel when loading fails or the handle is 0;
otherwise invokes `flux_behavior_processor_save_baselines`, querying
`flux_last_error` on a null result and freeing the snapshot buffer on
success. -/
def nativeProcessorSaveBaselines (env : LinkEnv) (w : World) (h : Nat) :
    Option Snapshot × World :=
  let r := load_flux_functions env w.bridge
  let w1 : World := { w with bridge := r.2 }
  if !r.1 || h = 0 then (none, w1)
  else
    let w2 : World := { w1 with calls := w1.calls ++ [.processor_save] }
    match w2.procs[h - 1]? with
    | none => (none, { w2 with calls := w2.calls ++ [.last_error] })
    | some p =>
      match p.saveBaselines with
      | .error _ => (none, { w2 with calls := w2.calls ++ [.last_error] })
      | .ok snap => (some snap, { w2 with calls := w2.calls ++ [.free_string] })

/-- `nativeProcessorLoadBaselines` (flux_jni_bridge.cpp:236-265):
returns -1 when loading fails, the handle is 0, or the input string is
null or unconvertible; otherwise invokes
`flux_behavior_processor_load_baselines` and forwards its status code,
querying `flux_last_error` on a non-zero code. -/
def nativeProcessorLoadBaselines (env : LinkEnv) (w : World) (h : Nat)
    (json : Option Snapshot) : Int × World :=
  let r := load_flux_functions env w.bridge
  let w1 : World := { w with bridge := r.2 }
  if !r.1 || h = 0 then (-1, w1)
  else
    match json with
    | none => (-1, w1)
    | some snap =>
      let w2 : World := { w1 with calls := w1.calls ++ [.processor_load] }
      match w2.procs[h - 1]? with
      | none => (-1, { w2 with calls := w2.calls ++ [.last_error] })
      | some p =>
        match p.loadBaselines snap with
        | .error _ => (-1, { w2 with calls := w2.calls ++ [.last_error] })
        | .ok p' => (0, { w2 with procs := w2.procs.set (h - 1) p' })

/-! ## Helper lemmas -/

/-- Sanity of the model on concrete inputs: a first session is
incorporated without comparison, a later one is compared against the
baseline mean. -/
theorem process_concrete_checks :
    Processor.new 3 = .ok ⟨3, [], false⟩ ∧
    Processor.new 0 = .error .InvalidConfiguration ∧
    Processor.process ⟨3, [], false⟩ ⟨some 1, some [10]⟩ =
      .ok (⟨false, none⟩, ⟨3, [10], false⟩) ∧
    Processor.process ⟨2, [11, 10], false⟩ ⟨some 3, some [12]⟩ =
      .ok (⟨true, some 3⟩, ⟨2, [12, 11], false⟩) :=
  ⟨rfl, rfl, rfl, rfl⟩

/-- Truncating the tail of an append before taking does not change the
result of taking. -/
theorem take_append_take {α : Type} (n : Nat) (L M : List α) :
    (L ++ M.take n).take n = (L ++ M).take n := by
  rw [List.take_append_eq_append_take, List.take_append_eq_append_take,
    List.take_take]
  rw [Nat.min_eq_left (Nat.sub_le n L.length)]

/-- A successful `Process` call on an Active processor with a valid
payload: the result incorporates the aggregate under window-bounded
eviction. -/
theorem process_valid_eq (w : Nat) (b : List Int) (r : RawPayload)
    (s : Session) (hs : parseSession r = some s) :
    Processor.process ⟨w, b, false⟩ r =
      .ok
        (if minComparisonSessions ≤ b.length then
          ⟨true, some (sessionAggregate s * b.length - b.sum)⟩
         else ⟨false, none⟩,
         ⟨w, (sessionAggregate s :: b).take w, false⟩) := by
  simp [Processor.process, hs]

/-- Characterization of a run of valid `Process` calls from an Active
processor whose baseline respects the window bound: the final baseline
is the window-truncation of the new aggregates (newest first) in front
of the old baseline. -/
theorem processMany_valid_eq (rs : List RawPayload) (w : Nat) (b : List Int)
    (hval : ∀ r ∈ rs, (parseSession r).isSome = true)
    (hb : b.length ≤ w) :
    Processor.processMany ⟨w, b, false⟩ rs =
      ⟨w, ((rs.map rawAggregate).reverse ++ b).take w, false⟩ := by
  induction rs generalizing b with
  | nil =>
    simp [Processor.processMany, List.take_of_length_le hb]
  | cons r rs ih =>
    obtain ⟨s, hs⟩ := Option.isSome_iff_exists.mp (hval r (List.mem_cons_self r rs))
    have hstep :
        Processor.processMany ⟨w, b, false⟩ (r :: rs) =
          Processor.processMany ⟨w, (sessionAggregate s :: b).take w, false⟩ rs := by
      simp [Processor.processMany, List.foldl_cons, process_valid_eq w b r s hs]
    rw [hstep, ih _ (fun x hx => hval x (List.mem_cons_of_mem r hx))
      (by simp [List.length_take])]
    have hagg : rawAggregate r = sessionAggregate s := by
      simp [rawAggregate, hs]
    simp only [List.map_cons, List.reverse_cons, hagg]
    rw [take_append_take, List.append_assoc]
    simp

/-- `loadedInv` holds of the bridge globals at process start. -/
theorem loadedInv_initial : loadedInv initialBridgeState := by
  intro h
  simp [initialBridgeState] at h

/-- Calling `load_flux_functions` a second time in the same environment
returns the same answer and leaves the globals where the first call put
them. -/
theorem load_flux_stable (env : LinkEnv) (s : BridgeState) :
    load_flux_functions env (load_flux_functions env s).2 =
      load_flux_functions env s := by
  unfold load_flux_functions
  by_cases h1 : s.g_functions_loaded
  · simp [h1]
  · by_cases h2 : env.dlopen_ok
    · by_cases h3 : (env.sym_to_hsi && env.sym_free_string && env.sym_last_error &&
        env.sym_processor_new && env.sym_processor_free && env.sym_processor_process &&
        env.sym_processor_save && env.sym_processor_load) = true
      · simp [h1, h2, h3]
      · simp [h1, h2, h3]
    · simp [h1, h2]

/-! ## Claim theorems -/

/-- C1: for every Baseline state reachable on an Active Processor,
serializing via `SaveBaselines` and loading the snapshot into a fresh
Processor constructed with the same window reproduces the original
Processor state exactly, so all future `Process` outputs coincide with
continuing on the original: load is a faithful inverse of save. -/
theorem processor_save_load_roundtrip (p : Processor)
    (hd : p.disposed = false) (hw : 0 < p.window) :
    ∃ snap, p.saveBaselines = Except.ok snap ∧
      ∀ q, Processor.new (p.window : Int) = Except.ok q →
        q.loadBaselines snap = Except.ok p := by
  obtain ⟨w, b, d⟩ := p
  subst hd
  refine ⟨⟨1, b⟩, by simp [Processor.saveBaselines], ?_⟩
  intro q hq
  have hpos : ¬ ((w : Int) ≤ 0) := by
    simp only [not_le]
    exact_mod_cast hw
  simp only [Processor.new, if_neg hpos, Except.ok.injEq] at hq
  subst hq
  simp [Processor.loadBaselines, decodeSnapshot]

/-- Witness for C1 at the concrete state `⟨3, [10, 12], false⟩`. -/
theorem processor_save_load_roundtrip_witness :
    ∃ snap,
      Processor.saveBaselines ⟨3, [10, 12], false⟩ = Except.ok snap ∧
      ∀ q, Processor.new 3 = Except.ok q →
        q.loadBaselines snap = Except.ok ⟨3, [10, 12], false⟩ :=
  processor_save_load_roundtrip ⟨3, [10, 12], false⟩ rfl (by decide)

/-- C3: on an Active Processor, a payload violating the schema (a
required field missing, i.e. it does not parse) makes `Process` fail
with `MalformedInput`, the Processor state after the failed call is
exactly the state before it, and `SaveBaselines` output is identical
before and after. -/
theorem process_malformed_rejected (p : Processor) (r : RawPayload)
    (hd : p.disposed = false) (hm : parseSession r = none) :
    p.process r = Except.error FluxError.MalformedInput ∧
    Processor.processMany p [r] = p ∧
    (Processor.processMany p [r]).saveBaselines = p.saveBaselines := by
  have h1 : p.process r = Except.error FluxError.MalformedInput := by
    simp [Processor.process, hd, hm]
  have h2 : Processor.processMany p [r] = p := by
    simp [Processor.processMany, h1]
  exact ⟨h1, h2, by rw [h2]⟩

/-- Witness for C3: a payload with a missing `events` field fed to
`⟨3, [10], false⟩`. -/
theorem process_malformed_rejected_witness :
    Processor.process ⟨3, [10], false⟩ ⟨some 7, none⟩ =
        Except.error FluxError.MalformedInput ∧
      Processor.processMany ⟨3, [10], false⟩ [⟨some 7, none⟩] =
        ⟨3, [10], false⟩ ∧
      (Processor.processMany ⟨3, [10], false⟩ [⟨some 7, none⟩]).saveBaselines =
        Processor.saveBaselines ⟨3, [10], false⟩ :=
  process_malformed_rejected ⟨3, [10], false⟩ ⟨some 7, none⟩ rfl rfl

/-- C4: every operation on a disposed Processor fails with the
`UseAfterDispose` error and performs no mutation (an erroring operation
returns no successor state in this embedding). -/
theorem disposed_operations_fail (p : Processor) (r : RawPayload)
    (snap : Snapshot) (hd : p.disposed = true) :
    p.process r = Except.error FluxError.UseAfterDispose ∧
    p.saveBaselines = Except.error FluxError.UseAfterDispose ∧
    p.loadBaselines snap = Except.error FluxError.UseAfterDispose := by
  refine ⟨?_, ?_, ?_⟩ <;>
    simp [Processor.process, Processor.saveBaselines, Processor.loadBaselines, hd]

/-- Witness for C4 at the disposed state `⟨3, [10], true⟩`. -/
theorem disposed_operations_fail_witness :
    Processor.process ⟨3, [10], true⟩ ⟨some 1, some [2]⟩ =
        Except.error FluxError.UseAfterDispose ∧
      Processor.saveBaselines ⟨3, [10], true⟩ =
        Except.error FluxError.UseAfterDispose ∧
      Processor.loadBaselines ⟨3, [10], true⟩ ⟨1, [5]⟩ =
        Except.error FluxError.UseAfterDispose :=
  disposed_operations_fail ⟨3, [10], true⟩ ⟨some 1, some [2]⟩ ⟨1, [5]⟩ rfl

/-- C5: constructing a Processor with `baselineWindow ≤ 0` fails with
`InvalidConfiguration` and, through the bridge, `nativeProcessorNew`
returns the null handle 0; a positive window yields an Active Processor
with an empty Baseline and that window. -/
theorem processor_new_validation (w : Int) :
    (w ≤ 0 →
      Processor.new w = Except.error FluxError.InvalidConfiguration ∧
      ∀ env world, (nativeProcessorNew env world w).1 = 0) ∧
    (0 < w → Processor.new w = Except.ok ⟨w.toNat, [], false⟩) := by
  constructor
  · intro hw
    have h1 : Processor.new w = Except.error FluxError.InvalidConfiguration := by
      simp [Processor.new, hw]
    refine ⟨h1, fun env world => ?_⟩
    cases hl : (load_flux_functions env world.bridge).1 <;>
      simp [nativeProcessorNew, hl, h1]
  · intro hw
    simp [Processor.new, not_le.mpr hw]

/-- Witness for C5 at windows 0 and 3. -/
theorem processor_new_validation_witness :
    Processor.new 0 = Except.error FluxError.InvalidConfiguration ∧
      Processor.new 3 = Except.ok ⟨3, [], false⟩ :=
  ⟨((processor_new_validation 0).1 (by decide)).1,
   (processor_new_validation 3).2 (by decide)⟩

/-- C7: `SaveBaselines` never fails on an Active Processor — an empty
Baseline serializes to the well-defined empty snapshot `⟨1, []⟩` — and
the bridge's save entry point never changes any processor's state. -/
theorem save_baselines_total (p : Processor) (hp : p.disposed = false) :
    p.saveBaselines = Except.ok ⟨1, p.baseline⟩ ∧
    ∀ env w h, (nativeProcessorSaveBaselines env w h).2.procs = w.procs := by
  refine ⟨by simp [Processor.saveBaselines, hp], fun env w h => ?_⟩
  cases hl : (load_flux_functions env w.bridge).1 with
  | false => simp [nativeProcessorSaveBaselines, hl]
  | true =>
    by_cases h0 : h = 0
    · simp [nativeProcessorSaveBaselines, hl, h0]
    · cases hq : w.procs[h - 1]? with
      | none => simp [nativeProcessorSaveBaselines, hl, h0, hq]
      | some q =>
        cases hs : q.saveBaselines <;>
          simp [nativeProcessorSaveBaselines, hl, h0, hq, hs]

/-- Witness for C7 at the empty Active state `⟨3, [], false⟩`. -/
theorem save_baselines_total_witness :
    Processor.saveBaselines ⟨3, [], false⟩ = Except.ok ⟨1, []⟩ ∧
      ∀ env w h, (nativeProcessorSaveBaselines env w h).2.procs = w.procs :=
  save_baselines_total ⟨3, [], false⟩ rfl

/-- C2: from a fresh Processor with window `w`, replacing the first
session of a run has no effect on the resulting state once at least `w`
further valid sessions have been processed (so the first session's
metric values no longer affect any comparison result), and the Baseline
never holds more than `w` sessions' worth of aggregates. -/
theorem baseline_window_bound (w : Nat) (hw : 0 < w) (a b : RawPayload)
    (rest : List RawPayload)
    (ha : (parseSession a).isSome = true) (hb : (parseSession b).isSome = true)
    (hrest : ∀ r ∈ rest, (parseSession r).isSome = true)
    (hlen : w ≤ rest.length) :
    Processor.processMany ⟨w, [], false⟩ (a :: rest) =
      Processor.processMany ⟨w, [], false⟩ (b :: rest) ∧
    ∀ rs, (∀ r ∈ rs, (parseSession r).isSome = true) →
      (Processor.processMany ⟨w, [], false⟩ rs).baseline.length ≤ w := by
  constructor
  · have hva : ∀ r ∈ a :: rest, (parseSession r).isSome = true := by
      intro r hr
      rcases List.mem_cons.mp hr with h | h
      · exact h ▸ ha
      · exact hrest r h
    have hvb : ∀ r ∈ b :: rest, (parseSession r).isSome = true := by
      intro r hr
      rcases List.mem_cons.mp hr with h | h
      · exact h ▸ hb
      · exact hrest r h
    rw [processMany_valid_eq _ _ _ hva (by simp),
      processMany_valid_eq _ _ _ hvb (by simp)]
    have hlen' : w ≤ ((rest.map rawAggregate).reverse).length := by
      simp [hlen]
    simp only [List.map_cons, List.reverse_cons, List.append_nil,
      Processor.mk.injEq]
    refine ⟨trivial, ?_, trivial⟩
    rw [List.take_append_of_le_length hlen',
      List.take_append_of_le_length hlen']
  · intro rs hrs
    rw [processMany_valid_eq _ _ _ hrs (by simp)]
    rw [List.length_take]
    exact Nat.min_le_left _ _

/-- Witness for C2: window 2; an extreme first session (aggregate 100)
and a tame one (aggregate 0) lead to identical states after 2 further
sessions. -/
theorem baseline_window_bound_witness :
    Processor.processMany ⟨2, [], false⟩
        (⟨some 0, some [100]⟩ :: [⟨some 1, some [10]⟩, ⟨some 2, some [12]⟩]) =
      Processor.processMany ⟨2, [], false⟩
        (⟨some 0, some [0]⟩ :: [⟨some 1, some [10]⟩, ⟨some 2, some [12]⟩]) ∧
    ∀ rs, (∀ r ∈ rs, (parseSession r).isSome = true) →
      (Processor.processMany ⟨2, [], false⟩ rs).baseline.length ≤ 2 :=
  baseline_window_bound 2 (by decide) ⟨some 0, some [100]⟩ ⟨some 0, some [0]⟩
    [⟨some 1, some [10]⟩, ⟨some 2, some [12]⟩]
    (by decide) (by decide) (by decide) (by decide)

/-- The free entry point leaves the bridge globals where
`load_flux_functions` put them. -/
theorem nativeProcessorFree_bridge (env : LinkEnv) (w : World) (h : Nat) :
    (nativeProcessorFree env w h).bridge = (load_flux_functions env w.bridge).2 := by
  cases hl : (load_flux_functions env w.bridge).1 with
  | false => simp [nativeProcessorFree, hl]
  | true =>
    by_cases h0 : h = 0
    · simp [nativeProcessorFree, hl, h0]
    · cases hq : w.procs[h - 1]? <;> simp [nativeProcessorFree, hl, h0, hq]

/-- Characterization of the heap after the free entry point: the
addressed processor is disposed exactly when loading succeeded and the
handle is non-null and valid. -/
theorem nativeProcessorFree_procs (env : LinkEnv) (w : World) (h : Nat) :
    (nativeProcessorFree env w h).procs =
      if (load_flux_functions env w.bridge).1 = true ∧ ¬h = 0 then
        match w.procs[h - 1]? with
        | none => w.procs
        | some p => w.procs.set (h - 1) p.dispose
      else w.procs := by
  cases hl : (load_flux_functions env w.bridge).1 with
  | false => simp [nativeProcessorFree, hl]
  | true =>
    by_cases h0 : h = 0
    · simp [nativeProcessorFree, hl, h0]
    · cases hq : w.procs[h - 1]? <;> simp [nativeProcessorFree, hl, h0, hq]

/-- C6: disposal is idempotent and tolerant of bad handles: disposing a
disposed processor changes nothing, `nativeProcessorFree` with the null
handle 0 neither touches the heap nor invokes any library function, an
invalid (dangling) handle leaves the heap unchanged, and a second free
of the same handle is a no-op on the heap. -/
theorem dispose_idempotent_null_noop (p : Processor) (env : LinkEnv)
    (w : World) (h : Nat) :
    Processor.dispose (Processor.dispose p) = Processor.dispose p ∧
    (nativeProcessorFree env w 0).procs = w.procs ∧
    (nativeProcessorFree env w 0).calls = w.calls ∧
    (w.procs[h - 1]? = none → (nativeProcessorFree env w h).procs = w.procs) ∧
    (nativeProcessorFree env (nativeProcessorFree env w h) h).procs =
      (nativeProcessorFree env w h).procs := by
  refine ⟨rfl, ?_, ?_, ?_, ?_⟩
  · cases hl : (load_flux_functions env w.bridge).1 <;>
      simp [nativeProcessorFree, hl]
  · cases hl : (load_flux_functions env w.bridge).1 <;>
      simp [nativeProcessorFree, hl]
  · intro hq
    rw [nativeProcessorFree_procs, hq]
    simp
  · rw [nativeProcessorFree_procs env (nativeProcessorFree env w h) h,
      nativeProcessorFree_bridge, load_flux_stable]
    by_cases hc : (load_flux_functions env w.bridge).1 = true ∧ ¬h = 0
    · rw [if_pos hc]
      rw [nativeProcessorFree_procs env w h, if_pos hc]
      cases hq : w.procs[h - 1]? with
      | none => simp [hq]
      | some p =>
        have hlt : h - 1 < w.procs.length :=
          (List.getElem?_eq_some_iff.mp hq).1
        have hget : (w.procs.set (h - 1) p.dispose)[h - 1]? =
            some p.dispose := by
          simp [List.getElem?_set_self', List.getElem?_eq_getElem hlt]
        simp only [hq, hget, List.set_set]
        rfl
    · rw [if_neg hc]

/-- Witness for C6 at a one-element heap and the dangling handle 2. -/
theorem dispose_idempotent_null_noop_witness :
    Processor.dispose (Processor.dispose ⟨3, [], false⟩) =
        Processor.dispose ⟨3, [], false⟩ ∧
      (nativeProcessorFree
          ⟨true, true, true, true, true, true, true, true, true, true⟩
          ⟨⟨true, true, true, true, true, true, true, true, true, true⟩,
            [⟨3, [], false⟩], []⟩ 2).procs = [⟨3, [], false⟩] :=
  ⟨(dispose_idempotent_null_noop ⟨3, [], false⟩
      ⟨true, true, true, true, true, true, true, true, true, true⟩
      ⟨⟨true, true, true, true, true, true, true, true, true, true⟩,
        [⟨3, [], false⟩], []⟩ 2).1,
   (dispose_idempotent_null_noop ⟨3, [], false⟩
      ⟨true, true, true, true, true, true, true, true, true, true⟩
      ⟨⟨true, true, true, true, true, true, true, true, true, true⟩,
        [⟨3, [], false⟩], []⟩ 2).2.2.2.1 rfl⟩

/-- Once the globals record a successful load, `load_flux_functions`
returns immediately without touching them (flux_jni_bridge.cpp:38-40). -/
theorem load_flux_of_loaded (env : LinkEnv) (s : BridgeState)
    (h : s.g_functions_loaded = true) :
    load_flux_functions env s = (true, s) := by
  simp [load_flux_functions, h]

/-- C8: the Converter entry point is pure and deterministic: with the
library loaded, two calls with the same payload from any two worlds —
in particular before and after arbitrary Processor activity — return
identical output, and the call never reads or writes any processor's
state. -/
theorem converter_pure (env : LinkEnv) (w1 w2 : World) (j : Option RawPayload)
    (h1 : w1.bridge.g_functions_loaded = true)
    (h2 : w2.bridge.g_functions_loaded = true) :
    (nativeBehaviorToHsi env w1 j).1 = (nativeBehaviorToHsi env w2 j).1 ∧
    (nativeBehaviorToHsi env w1 j).2.procs = w1.procs := by
  have l1 := load_flux_of_loaded env w1.bridge h1
  have l2 := load_flux_of_loaded env w2.bridge h2
  cases j with
  | none => simp [nativeBehaviorToHsi, l1, l2]
  | some r =>
    cases ht : toIndicator r <;> simp [nativeBehaviorToHsi, l1, l2, ht]

/-- Witness for C8: two loaded worlds, one empty and one with a live
processor and prior activity, on the same payload. -/
theorem converter_pure_witness :
    (nativeBehaviorToHsi
        ⟨true, true, true, true, true, true, true, true, true, true⟩
        ⟨⟨true, true, true, true, true, true, true, true, true, true⟩, [], []⟩
        (some ⟨some 1, some [4]⟩)).1 =
      (nativeBehaviorToHsi
        ⟨true, true, true, true, true, true, true, true, true, true⟩
        ⟨⟨true, true, true, true, true, true, true, true, true, true⟩,
          [⟨3, [5], false⟩], [NativeCall.processor_new]⟩
        (some ⟨some 1, some [4]⟩)).1 ∧
    (nativeBehaviorToHsi
        ⟨true, true, true, true, true, true, true, true, true, true⟩
        ⟨⟨true, true, true, true, true, true, true, true, true, true⟩, [], []⟩
        (some ⟨some 1, some [4]⟩)).2.procs = [] :=
  converter_pure
    ⟨true, true, true, true, true, true, true, true, true, true⟩
    ⟨⟨true, true, true, true, true, true, true, true, true, true⟩, [], []⟩
    ⟨⟨true, true, true, true, true, true, true, true, true, true⟩,
      [⟨3, [5], false⟩], [NativeCall.processor_new]⟩
    (some ⟨some 1, some [4]⟩) rfl rfl

/-- An entry point returns its null sentinel whenever loading fails
(flux_jni_bridge.cpp:119-121). -/
theorem nativeBehaviorToHsi_notloaded (env : LinkEnv) (w : World)
    (j : Option RawPayload)
    (h : (load_flux_functions env w.bridge).1 = false) :
    (nativeBehaviorToHsi env w j).1 = none := by
  simp [nativeBehaviorToHsi, h]

/-- The load-baselines entry point returns -1 whenever loading fails
(flux_jni_bridge.cpp:244-246). -/
theorem nativeProcessorLoadBaselines_notloaded (env : LinkEnv) (w : World)
    (h : Nat) (j : Option Snapshot)
    (hld : (load_flux_functions env w.bridge).1 = false) :
    (nativeProcessorLoadBaselines env w h j).1 = -1 := by
  simp [nativeProcessorLoadBaselines, hld]

/-- The constructor entry point returns the zero handle whenever
loading fails (flux_jni_bridge.cpp:152-154). -/
theorem nativeProcessorNew_notloaded (env : LinkEnv) (w : World)
    (window : Int)
    (hld : (load_flux_functions env w.bridge).1 = false) :
    (nativeProcessorNew env w window).1 = 0 := by
  simp [nativeProcessorNew, hld]

/-- The process entry point returns its null sentinel whenever loading
fails (flux_jni_bridge.cpp:183-185). -/
theorem nativeProcessorProcess_notloaded (env : LinkEnv) (w : World)
    (h : Nat) (j : Option RawPayload)
    (hld : (load_flux_functions env w.bridge).1 = false) :
    (nativeProcessorProcess env w h j).1 = none := by
  simp [nativeProcessorProcess, hld]

/-- The save entry point returns its null sentinel whenever loading
fails (flux_jni_bridge.cpp:216-218). -/
theorem nativeProcessorSaveBaselines_notloaded (env : LinkEnv) (w : World)
    (h : Nat)
    (hld : (load_flux_functions env w.bridge).1 = false) :
    (nativeProcessorSaveBaselines env w h).1 = none := by
  simp [nativeProcessorSaveBaselines, hld]

/-- The free entry point is a no-op on the heap and invokes no library
function whenever loading fails (flux_jni_bridge.cpp:167-169). -/
theorem nativeProcessorFree_notloaded (env : LinkEnv) (w : World) (h : Nat)
    (hld : (load_flux_functions env w.bridge).1 = false) :
    (nativeProcessorFree env w h).procs = w.procs ∧
    (nativeProcessorFree env w h).calls = w.calls := by
  constructor <;> simp [nativeProcessorFree, hld]

/-- C9: the bridge keeps the invariant that `g_functions_loaded` is
true only when all eight required function pointers are non-null: the
invariant holds initially, is preserved by `load_flux_functions`, and a
`true` answer from `load_flux_functions` guarantees all eight pointers
are non-null (so an entry point that proceeds past its load guard never
dereferences a null function pointer); when loading fails, every JNI
entry point returns its failure sentinel without invoking any library
function: null from `nativeBehaviorToHsi`, `nativeProcessorProcess` and
`nativeProcessorSaveBaselines`, handle 0 from `nativeProcessorNew`, -1
from `nativeProcessorLoadBaselines`, and `nativeProcessorFree` leaves
the heap and the call trace unchanged. -/
theorem bridge_pointer_invariant (env : LinkEnv) (s : BridgeState)
    (hs : loadedInv s) :
    loadedInv initialBridgeState ∧
    loadedInv (load_flux_functions env s).2 ∧
    ((load_flux_functions env s).1 = true →
      requiredLoaded (load_flux_functions env s).2 = true) ∧
    (∀ w j, w.bridge = s → (load_flux_functions env s).1 = false →
      (nativeBehaviorToHsi env w j).1 = none) ∧
    (∀ w h j, w.bridge = s → (load_flux_functions env s).1 = false →
      (nativeProcessorLoadBaselines env w h j).1 = -1) ∧
    (∀ w window, w.bridge = s → (load_flux_functions env s).1 = false →
      (nativeProcessorNew env w window).1 = 0) ∧
    (∀ w h j, w.bridge = s → (load_flux_functions env s).1 = false →
      (nativeProcessorProcess env w h j).1 = none) ∧
    (∀ w h, w.bridge = s → (load_flux_functions env s).1 = false →
      (nativeProcessorSaveBaselines env w h).1 = none) ∧
    (∀ w h, w.bridge = s → (load_flux_functions env s).1 = false →
      (nativeProcessorFree env w h).procs = w.procs ∧
      (nativeProcessorFree env w h).calls = w.calls) := by
  refine ⟨loadedInv_initial, ?_, ?_,
    fun w j hw hf => nativeBehaviorToHsi_notloaded env w j (by rw [hw]; exact hf),
    fun w h j hw hf =>
      nativeProcessorLoadBaselines_notloaded env w h j (by rw [hw]; exact hf),
    fun w window hw hf =>
      nativeProcessorNew_notloaded env w window (by rw [hw]; exact hf),
    fun w h j hw hf =>
      nativeProcessorProcess_notloaded env w h j (by rw [hw]; exact hf),
    fun w h hw hf =>
      nativeProcessorSaveBaselines_notloaded env w h (by rw [hw]; exact hf),
    fun w h hw hf =>
      nativeProcessorFree_notloaded env w h (by rw [hw]; exact hf)⟩
  · intro hld
    by_cases h1 : s.g_functions_loaded
    · rw [load_flux_of_loaded env s h1] at hld ⊢
      exact hs hld
    · by_cases h2 : env.dlopen_ok
      · by_cases h3 : (env.sym_to_hsi && env.sym_free_string &&
          env.sym_last_error && env.sym_processor_new &&
          env.sym_processor_free && env.sym_processor_process &&
          env.sym_processor_save && env.sym_processor_load) = true
        · simp only [Bool.and_eq_true] at h3
          simp [load_flux_functions, h1, h2, requiredLoaded, h3.1.1.1.1.1.1.1,
            h3.1.1.1.1.1.1.2, h3.1.1.1.1.1.2, h3.1.1.1.1.2, h3.1.1.1.2,
            h3.1.1.2, h3.1.2, h3.2]
        · simp [load_flux_functions, h1, h2, h3] at hld
      · simp [load_flux_functions, h1, h2] at hld
  · intro hld
    by_cases h1 : s.g_functions_loaded
    · rw [load_flux_of_loaded env s h1]
      exact hs h1
    · by_cases h2 : env.dlopen_ok
      · by_cases h3 : (env.sym_to_hsi && env.sym_free_string &&
          env.sym_last_error && env.sym_processor_new &&
          env.sym_processor_free && env.sym_processor_process &&
          env.sym_processor_save && env.sym_processor_load) = true
        · simp only [Bool.and_eq_true] at h3
          simp [load_flux_functions, h1, h2, requiredLoaded, h3.1.1.1.1.1.1.1,
            h3.1.1.1.1.1.1.2, h3.1.1.1.1.1.2, h3.1.1.1.1.2, h3.1.1.1.2,
            h3.1.1.2, h3.1.2, h3.2]
        · simp [load_flux_functions, h1, h2, h3] at hld
      · simp [load_flux_functions, h1, h2] at hld

/-- Witness for C9: a fully resolving environment acting on the initial
globals keeps the invariant. -/
theorem bridge_pointer_invariant_witness :
    loadedInv (load_flux_functions
      ⟨true, true, true, true, true, true, true, true, true, true⟩
      initialBridgeState).2 :=
  (bridge_pointer_invariant
    ⟨true, true, true, true, true, true, true, true, true, true⟩
    initialBridgeState loadedInv_initial).2.1

/-- C10: a null (or unconvertible) JSON input string makes
`nativeBehaviorToHsi` and `nativeProcessorProcess` return null and
`nativeProcessorLoadBaselines` return -1, and in each case no library
function is invoked (the call trace is unchanged) and no processor
state is read or mutated (the heap is unchanged). -/
theorem null_input_guards (env : LinkEnv) (w : World) (h : Nat) :
    (nativeBehaviorToHsi env w none).1 = none ∧
    (nativeBehaviorToHsi env w none).2.procs = w.procs ∧
    (nativeBehaviorToHsi env w none).2.calls = w.calls ∧
    (nativeProcessorProcess env w h none).1 = none ∧
    (nativeProcessorProcess env w h none).2.procs = w.procs ∧
    (nativeProcessorProcess env w h none).2.calls = w.calls ∧
    (nativeProcessorLoadBaselines env w h none).1 = -1 ∧
    (nativeProcessorLoadBaselines env w h none).2.procs = w.procs ∧
    (nativeProcessorLoadBaselines env w h none).2.calls = w.calls := by
  refine ⟨?_, ?_, ?_, ?_, ?_, ?_, ?_, ?_, ?_⟩ <;>
    cases hl : (load_flux_functions env w.bridge).1 <;>
      by_cases h0 : h = 0 <;>
        simp [nativeBehaviorToHsi, nativeProcessorProcess,
          nativeProcessorLoadBaselines, hl, h0]
